import Mathlib

set_option autoImplicit false
set_option linter.unusedVariables false

/-!
Shallow embedding of the payment-reconciliation backend of
MachinePay/BackendMachineToten (src/server.js and related revisions).

The JavaScript sources are effectful express handlers talking to the
Mercado Pago gateway.  Here every handler is a pure Lean function whose
remote interactions are explicit inputs (the responses the gateway would
have returned) and explicit outputs (the list of gateway calls the handler
performed), and whose in-process mutable state (the confirmedPayments Map,
the knex-backed orders/products tables) is threaded as explicit values.
Currency amounts, which are JS doubles holding small decimal currency
values, are modelled as rationals; timestamps as integers (epoch millis).
-/

namespace MachineToten

/-- JS String.prototype.startsWith, used by the status endpoints to detect
mock payment ids: true when the second string is a prefix of the first. -/
def startsWith (s pre : String) : Bool :=
  pre.data.isPrefixOf s.data

/-- JS Math.abs on a (decimal) number, as used in the amount comparison
of the busca-por-valor strategy. -/
def mathAbs (x : ℚ) : ℚ :=
  if x < 0 then -x else x

/-! ## The confirmedPayments cache (server.js lines 54-65, 488-502, 553-565)

A JS Map from string keys to confirmed-payment records, modelled as an
association list; Map.set overwrites the entry of an existing key. -/

/-- One record stored in the confirmedPayments Map by the webhook/IPN
handlers: { paymentId, amount, status, timestamp: Date.now() }. -/
structure CacheEntry where
  paymentId : String
  amount : ℚ
  status : String
  timestamp : ℤ
deriving DecidableEq, Repr

abbrev Cache := List (String × CacheEntry)

/-- confirmedPayments.set(key, value): overwrites any entry with the same
key (JS Map.set semantics). -/
def cacheSet (k : String) (v : CacheEntry) (c : Cache) : Cache :=
  (k, v) :: c.filter (fun p => !(p.1 == k))

/-- confirmedPayments.get(key) (JS Map.get): a pure read, it never evicts. -/
def lookupCache (c : Cache) (k : String) : Option CacheEntry :=
  (c.find? (fun p => p.1 == k)).map (fun p => p.2)

/-- The hourly cache sweep (server.js lines 58-65): deletes every entry
whose timestamp is older than now - 3600000 ms. -/
def sweepCache (now : ℤ) (c : Cache) : Cache :=
  c.filter (fun p => !(decide (p.2.timestamp < now - 3600000)))

/-- A sequence of sweep firings at the given times. -/
def runSweeps (times : List ℤ) (c : Cache) : Cache :=
  times.foldl (fun acc t => sweepCache t acc) c

/-! ## Products, order items and the stock decrement (server.js 567-604) -/

/-- A row of the products table; stock: NULL = unlimited, integer = finite. -/
structure Product where
  id : String
  name : String
  stock : Option ℤ
deriving DecidableEq, Repr

/-- One item of an order's items JSON array. -/
structure OrderItem where
  id : String
  name : String
  quantity : ℤ
deriving DecidableEq, Repr

/-- The per-item product update of the webhook stock decrement
(server.js 582-589): if the product row matches the item id and has
non-null stock, its stock becomes Math.max(0, stock - quantity). -/
def stepProduct (item : OrderItem) (p : Product) : Product :=
  if p.id == item.id then
    match p.stock with
    | none => p
    | some s => { p with stock := some (max 0 (s - item.quantity)) }
  else p

/-- Processing one order item against the products table. -/
def applyItem (products : List Product) (item : OrderItem) : List Product :=
  products.map (stepProduct item)

/-- The webhook's loop over all items of the paid order (server.js 581-595). -/
def decrementItems (products : List Product) (items : List OrderItem) : List Product :=
  items.foldl applyItem products

/-! ## Orders (server.js 389-435) -/

/-- A row of the orders table. -/
structure Order where
  id : String
  userId : String
  userName : String
  items : List OrderItem
  total : ℚ
  timestamp : String
  status : String
  paymentStatus : String
  paymentId : Option String
  completedAt : Option String
deriving DecidableEq, Repr

/-- POST /api/orders (server.js 389-424): the inserted row; note that
paymentStatus is set to "paid" at creation ("Assumimos pago pois o
frontend so chama apos sucesso"). -/
def createOrder (oid userId userName : String) (items : List OrderItem)
    (total : ℚ) (ts : String) (payId : Option String) : Order :=
  ⟨oid, userId, userName, items, total, ts, "active", "paid", payId, none⟩

/-! ## Webhook / IPN processing (server.js 457-509 and 518-610) -/

/-- The payment details fetched from /v1/payments/:id while processing a
webhook or IPN notification. -/
structure PaymentNotification where
  id : String
  status : String
  transaction_amount : ℚ
  external_reference : Option String
deriving DecidableEq, Repr

/-- The whole in-process server state the handlers touch. -/
structure SysState where
  orders : List Order
  products : List Product
  cache : Cache

/-- The cache key used by both notification handlers:
"amount_" + Math.round(transaction_amount * 100). -/
def amountKey (amount : ℚ) : String :=
  "amount_" ++ toString (round (amount * 100))

/-- The cache insertion both notification handlers perform for an
approved/authorized payment. -/
def recordConfirmed (p : PaymentNotification) (now : ℤ) (c : Cache) : Cache :=
  cacheSet (amountKey p.transaction_amount) ⟨p.id, p.transaction_amount, p.status, now⟩ c

/-- POST /api/webhooks/mercadopago background processing (server.js
534-605).  pay = none covers a notification without a payment id, a
non-payment action, or a failed payment-details fetch; otherwise, for an
approved/authorized payment the handler records it in the cache and runs
the stock decrement on the order named by external_reference.  It never
updates any order row. -/
def webhookStep (s : SysState) (pay : Option PaymentNotification) (now : ℤ) : SysState :=
  match pay with
  | none => s
  | some p =>
    if p.status == "approved" || p.status == "authorized" then
      { s with
        cache := recordConfirmed p now s.cache
        products :=
          match p.external_reference with
          | none => s.products
          | some oid =>
            match s.orders.find? (fun o => o.id == oid) with
            | some o => decrementItems s.products o.items
            | none => s.products }
    else s

/-- POST /api/notifications/mercadopago background processing (server.js
475-505): records approved/authorized payments in the cache and touches
nothing else ("Estoque ja foi descontado no momento da criacao do pedido"). -/
def ipnStep (s : SysState) (pay : Option PaymentNotification) (now : ℤ) : SysState :=
  match pay with
  | none => s
  | some p =>
    if p.status == "approved" || p.status == "authorized" then
      { s with cache := recordConfirmed p now s.cache }
    else s

/-- DELETE /api/orders/:id (server.js 426-435): marks the order completed;
paymentStatus is not among the updated columns. -/
def completeOrderStep (s : SysState) (oid : String) (ts : String) : SysState :=
  { s with
    orders := s.orders.map (fun o =>
      if o.id == oid then { o with status := "completed", completedAt := some ts } else o) }

/-! ## The status-check endpoints -/

/-- Result of one remote fetch as the JS code distinguishes them: a parsed
2xx body, a non-2xx response, or a thrown network error. -/
inductive FetchR (α : Type) where
  | ok (body : α)
  | notOk
  | netErr
deriving DecidableEq, Repr

/-- The payment-intent body used by the current-revision status endpoint:
state and the optional payment.id the terminal links once it has one. -/
structure IntentMain where
  state : String
  payment : Option String
deriving DecidableEq, Repr

/-- The /v1/payments/:id body used by the PIX fallback of the
current-revision status endpoint. -/
structure PaymentMain where
  id : String
  status : String
deriving DecidableEq, Repr

/-- The two remote reads the current-revision status endpoint can make. -/
structure MainGateway where
  intentFetch : FetchR IntentMain
  paymentFetch : FetchR PaymentMain
deriving DecidableEq, Repr

/-- The gateway calls a status-check invocation can issue, in order. -/
inductive GatewayCall where
  | getIntent (pid : String)
  | deleteIntent (pid : String)
  | getPayment (pid : String)
  | searchPayments
deriving DecidableEq, Repr

/-- An HTTP response of the status endpoints. -/
structure ApiResp where
  httpCode : Nat
  status : Option String
  paymentId : Option String
  error : Option String
deriving DecidableEq, Repr

def pending200 : ApiResp := ⟨200, some "pending", none, none⟩
def approved200 : ApiResp := ⟨200, some "approved", none, none⟩
def approvedWith (pid : String) : ApiResp := ⟨200, some "approved", some pid, none⟩
def canceled200 : ApiResp := ⟨200, some "canceled", none, none⟩
def noToken500 : ApiResp := ⟨500, none, none, some "Sem token MP"⟩

/-- GET /api/payment/status/:paymentId, current revision (server.js
909-994).  Returns the HTTP response together with the ordered list of
gateway calls the handler performed.  The confirmedPayments cache is in
scope in the JS file, hence an argument here; the handler body never
reads it.  A best-effort intent deletion whose error is swallowed still
appears in the call list. -/
def checkPaymentStatus (hasToken : Bool) (paymentId : String) (cache : Cache)
    (gw : MainGateway) : ApiResp × List GatewayCall :=
  if startsWith paymentId "mock_" then (approved200, [])
  else if !hasToken then (noToken500, [])
  else
    match gw.intentFetch with
    | .netErr => (pending200, [.getIntent paymentId])
    | .ok intent =>
      match intent.payment with
      | some payId =>
        (approvedWith payId, [.getIntent paymentId, .deleteIntent paymentId])
      | none =>
        if intent.state == "FINISHED" then (approved200, [.getIntent paymentId])
        else if intent.state == "CANCELED" || intent.state == "ERROR" then
          (canceled200, [.getIntent paymentId])
        else (pending200, [.getIntent paymentId])
    | .notOk =>
      match gw.paymentFetch with
      | .netErr => (pending200, [.getIntent paymentId, .getPayment paymentId])
      | .notOk => (pending200, [.getIntent paymentId, .getPayment paymentId])
      | .ok p =>
        if p.status == "approved" then
          (approvedWith p.id, [.getIntent paymentId, .getPayment paymentId])
        else if p.status == "cancelled" || p.status == "rejected" then
          (canceled200, [.getIntent paymentId, .getPayment paymentId])
        else (pending200, [.getIntent paymentId, .getPayment paymentId])

/-- The intent body as the revision-2 status endpoint reads it
(server.js 1869-1934): respIntent.json() is parsed without checking
respIntent.ok, so a non-2xx body is simply one with absent fields.
amount is in centavos. -/
structure IntentDataV2 where
  state : Option String
  payment : Option String
  amount : Option ℤ
deriving DecidableEq, Repr

/-- One result of /v1/payments/search in the revision-2 endpoint. -/
structure PaymentV2 where
  id : String
  status : String
  transaction_amount : ℚ
deriving DecidableEq, Repr

/-- The remote reads of the revision-2 status endpoint.  none models a
thrown fetch; a non-2xx search response yields results undefined, i.e.
the same as some []. -/
structure GatewayV2 where
  intentFetch : Option IntentDataV2
  searchFetch : Option (List PaymentV2)
deriving DecidableEq, Repr

/-- The busca-por-valor acceptance test (server.js 1908-1912): status
approved or authorized and Math.abs(transaction_amount - expectedAmount)
< 0.01. -/
def fuzzyMatch (expectedAmount : ℚ) (p : PaymentV2) : Bool :=
  (p.status == "approved" || p.status == "authorized")
    && decide (mathAbs (p.transaction_amount - expectedAmount) < 1/100)

/-- GET /api/payment/status/:paymentId, revision 2 (server.js 1869-1934),
the "busca por valor" version.  Note: only the fuzzy-match branch deletes
the intent; FINISHED/PROCESSED and payment.id approvals return without a
deletion. -/
def statusCheckV2 (paymentId : String) (gw : GatewayV2) : ApiResp × List GatewayCall :=
  if startsWith paymentId "mock_pay" then (approved200, [])
  else
    match gw.intentFetch with
    | none => (pending200, [.getIntent paymentId])
    | some dataIntent =>
      if dataIntent.state == some "FINISHED" || dataIntent.state == some "PROCESSED" then
        (approved200, [.getIntent paymentId])
      else if dataIntent.payment.isSome then
        (approved200, [.getIntent paymentId])
      else
        let expectedAmount : ℚ := ((dataIntent.amount.getD 0 : ℤ) : ℚ) / 100
        if 0 < expectedAmount then
          match gw.searchFetch with
          | none => (pending200, [.getIntent paymentId, .searchPayments])
          | some payments =>
            match payments.find? (fuzzyMatch expectedAmount) with
            | some _ =>
              (approved200,
               [.getIntent paymentId, .searchPayments, .deleteIntent paymentId])
            | none => (pending200, [.getIntent paymentId, .searchPayments])
        else (pending200, [.getIntent paymentId])

/-! ## Event traces over the server state (for the paid-at-most-once claim) -/

/-- The firings that can touch (or could be suspected of touching) an
order after its creation. -/
inductive Event where
  | webhook (pay : Option PaymentNotification) (now : ℤ)
  | ipn (pay : Option PaymentNotification) (now : ℤ)
  | statusCheck (hasToken : Bool) (pid : String) (gw : MainGateway)
  | statusCheckOld (pid : String) (gw : GatewayV2)
  | cacheSweep (now : ℤ)
  | completeOrder (oid : String) (ts : String)

/-- Effect of one firing on the server state.  The status endpoints read
the gateway and respond; they write no server state. -/
def step (s : SysState) (e : Event) : SysState :=
  match e with
  | .webhook pay now => webhookStep s pay now
  | .ipn pay now => ipnStep s pay now
  | .statusCheck _ _ _ => s
  | .statusCheckOld _ _ => s
  | .cacheSweep now => { s with cache := sweepCache now s.cache }
  | .completeOrder oid ts => completeOrderStep s oid ts

/-- All states reached along a trace, initial state included. -/
def run (s : SysState) (es : List Event) : List SysState :=
  es.scanl step s

/-- The paymentStatus column of the order with the given id, if present. -/
def orderPaymentStatus (s : SysState) (oid : String) : Option String :=
  (s.orders.find? (fun o => o.id == oid)).map (fun o => o.paymentStatus)

/-- The observed paymentStatus of one order along a trace. -/
def statusTrace (oid : String) (s : SysState) (es : List Event) : List (Option String) :=
  (run s es).map (fun st => orderPaymentStatus st oid)

/-- Number of adjacent pending-to-paid transitions in an observed
paymentStatus trace. -/
def countPendingPaid : List (Option String) → Nat
  | a :: b :: rest =>
      (if a = some "pending" ∧ b = some "paid" then 1 else 0) + countPendingPaid (b :: rest)
  | _ => 0

/-! ## The 2-minute device-queue auto-cleanup (server.js 69-113) -/

/-- One element of the events array returned by listing the device's
payment intents. -/
structure IntentEvent where
  id : String
  state : String
deriving DecidableEq, Repr

/-- The shouldClean test of the auto-cleanup sweep (server.js 90-92). -/
def terminalState (st : String) : Bool :=
  st == "FINISHED" || st == "CANCELED" || st == "ERROR"

/-- The ids the auto-cleanup sweep issues DELETE calls for, given the
result of listing the device queue (none = listing failed or non-2xx:
nothing is deleted). -/
def autoCleanupDeleted (listFetch : Option (List IntentEvent)) : List String :=
  match listFetch with
  | none => []
  | some events => (events.filter (fun ev => terminalState ev.state)).map (fun ev => ev.id)

/-! ## DELETE /api/payment/cancel/:paymentId (server.js 1007-1119) -/

/-- The delResp.ok || status 204 || status 404 success test used for
intent deletions in the cancel endpoint (fetch .ok is any 2xx). -/
def isDelSuccess (status : Nat) : Bool :=
  (decide (200 ≤ status) && decide (status < 300)) || status == 204 || status == 404

/-- One intent of the device queue together with the HTTP statuses the
gateway would answer to the first deletion attempt and to a retry. -/
structure IntentDel where
  id : String
  firstStatus : Nat
  retryStatus : Nat
deriving DecidableEq, Repr

/-- Outcome of deleting one intent: whether it ended up removed, how many
DELETE attempts were made, and how long the handler waited between them. -/
structure DelOutcome where
  removed : Bool
  attempts : Nat
  waitedMs : Nat
deriving DecidableEq, Repr

/-- The per-intent deletion of the cancel endpoint (server.js 1043-1069):
success statuses are accepted at once; a 409 waits 2000 ms and retries
exactly once; any other failure is logged and the loop moves on. -/
def deleteIntentDel (i : IntentDel) : DelOutcome :=
  if isDelSuccess i.firstStatus then ⟨true, 1, 0⟩
  else if i.firstStatus == 409 then ⟨isDelSuccess i.retryStatus, 2, 2000⟩
  else ⟨false, 1, 0⟩

/-- The cancel endpoint's response body (success and cleared fields). -/
structure CancelResp where
  success : Bool
  cleared : Nat
deriving DecidableEq, Repr

/-- The device-queue path of DELETE /api/payment/cancel/:paymentId
(server.js 1024-1088) once the queue listing succeeded: every intent is
processed in order, failures included, and the endpoint then reports
success with cleared = events.length. -/
def cancelPointQueue (intents : List IntentDel) : CancelResp × List DelOutcome :=
  (⟨true, intents.length⟩, intents.map deleteIntentDel)

/-! ## Helper lemmas -/

theorem lookupCache_cons_self (k : String) (v : CacheEntry) (rest : Cache) :
    lookupCache ((k, v) :: rest) k = some v := by
  simp [lookupCache, List.find?]

theorem sweepCache_cons_keep (now : ℤ) (k : String) (v : CacheEntry) (rest : Cache)
    (h : now ≤ v.timestamp + 3600000) :
    sweepCache now ((k, v) :: rest) = (k, v) :: sweepCache now rest := by
  have hlt : ¬ (v.timestamp < now - 3600000) := by omega
  simp [sweepCache, List.filter_cons, hlt]

theorem sweepCache_cons_drop (now : ℤ) (k : String) (v : CacheEntry) (rest : Cache)
    (h : v.timestamp + 3600000 < now) :
    sweepCache now ((k, v) :: rest) = sweepCache now rest := by
  have hlt : v.timestamp < now - 3600000 := by omega
  simp [sweepCache, List.filter_cons, hlt]

theorem runSweeps_cons_shape (k : String) (v : CacheEntry) (times : List ℤ) :
    ∀ rest : Cache, (∀ t ∈ times, t ≤ v.timestamp + 3600000) →
      ∃ rest2 : Cache, runSweeps times ((k, v) :: rest) = (k, v) :: rest2
        ∧ rest2.Sublist rest := by
  induction times with
  | nil => exact fun rest _ => ⟨rest, rfl, List.Sublist.refl rest⟩
  | cons t ts ih =>
    intro rest h
    have hstep : runSweeps (t :: ts) ((k, v) :: rest)
        = runSweeps ts (sweepCache t ((k, v) :: rest)) := rfl
    rw [hstep, sweepCache_cons_keep t k v rest (h t (List.mem_cons_self t ts))]
    obtain ⟨rest2, heq, hsub⟩ :=
      ih (sweepCache t rest) (fun u hu => h u (List.mem_cons_of_mem t hu))
    exact ⟨rest2, heq, hsub.trans (List.filter_sublist rest)⟩

theorem step_orders_webhook (s : SysState) (pay : Option PaymentNotification) (now : ℤ) :
    (webhookStep s pay now).orders = s.orders := by
  cases pay with
  | none => rfl
  | some p =>
    unfold webhookStep
    dsimp only
    split <;> rfl

theorem step_orders_ipn (s : SysState) (pay : Option PaymentNotification) (now : ℤ) :
    (ipnStep s pay now).orders = s.orders := by
  cases pay with
  | none => rfl
  | some p =>
    unfold ipnStep
    dsimp only
    split <;> rfl

theorem orderPaymentStatus_completeOrderStep (s : SysState) (oid2 ts oid : String) :
    orderPaymentStatus (completeOrderStep s oid2 ts) oid = orderPaymentStatus s oid := by
  unfold orderPaymentStatus completeOrderStep
  dsimp only
  rw [List.find?_map]
  have hcomp : ((fun o : Order => o.id == oid) ∘ fun o : Order =>
      if o.id == oid2 then { o with status := "completed", completedAt := some ts } else o)
      = fun o : Order => o.id == oid := by
    funext o
    by_cases h : (o.id == oid2) = true <;> simp [Function.comp, h]
  rw [hcomp]
  cases hfind : s.orders.find? (fun o => o.id == oid) with
  | none => rfl
  | some o =>
    dsimp only [Option.map]
    by_cases h : (o.id == oid2) = true <;> simp [h]

theorem orderPaymentStatus_step (s : SysState) (e : Event) (oid : String) :
    orderPaymentStatus (step s e) oid = orderPaymentStatus s oid := by
  cases e with
  | webhook pay now =>
    show orderPaymentStatus (webhookStep s pay now) oid = _
    unfold orderPaymentStatus
    rw [step_orders_webhook]
  | ipn pay now =>
    show orderPaymentStatus (ipnStep s pay now) oid = _
    unfold orderPaymentStatus
    rw [step_orders_ipn]
  | statusCheck hasToken pid gw => rfl
  | statusCheckOld pid gw => rfl
  | cacheSweep now => rfl
  | completeOrder oid2 ts => exact orderPaymentStatus_completeOrderStep s oid2 ts oid

theorem statusTrace_const (oid : String) : ∀ (es : List Event) (s : SysState),
    statusTrace oid s es = List.replicate (es.length + 1) (orderPaymentStatus s oid) := by
  intro es
  induction es with
  | nil => intro s; rfl
  | cons e es ih =>
    intro s
    have hcons : statusTrace oid s (e :: es)
        = orderPaymentStatus s oid :: statusTrace oid (step s e) es := rfl
    rw [hcons, ih (step s e), orderPaymentStatus_step]
    rfl

theorem countPendingPaid_replicate (n : Nat) (x : Option String) :
    countPendingPaid (List.replicate n x) = 0 := by
  induction n with
  | zero => rfl
  | succ m ih =>
    cases m with
    | zero => rfl
    | succ m2 =>
      have hx : ¬ (x = some "pending" ∧ x = some "paid") := by
        rintro ⟨h1, h2⟩
        rw [h1] at h2
        exact absurd (Option.some.inj h2) (by decide)
      calc countPendingPaid (List.replicate (m2 + 2) x)
          = (if x = some "pending" ∧ x = some "paid" then 1 else 0)
            + countPendingPaid (List.replicate (m2 + 1) x) := rfl
        _ = 0 := by rw [if_neg hx, ih]

/-! ## Claim theorems -/

/-- Claim C1: for every order, the paymentStatus field transitions from
pending to paid at most once over the order's lifetime, no matter how many
times the status-check endpoint or the webhook/IPN handler fires for that
order.  (In this code the order is created already "paid" and no handler
ever writes paymentStatus, so the count of pending-to-paid transitions
along any event trace is zero.) -/
theorem claim_C1 (s0 : SysState) (oid userId userName : String) (items : List OrderItem)
    (total : ℚ) (ts : String) (payId : Option String) (es : List Event) :
    countPendingPaid (statusTrace oid
      { s0 with orders := createOrder oid userId userName items total ts payId :: s0.orders }
      es) ≤ 1 := by
  rw [statusTrace_const, countPendingPaid_replicate]
  exact Nat.zero_le 1

/-- Claim C9: a confirmed-payment cache entry inserted at time T survives
every sweep run at or before T plus the one-hour retention window and is
still found by a lookup then; a sweep running after T plus the window
removes it.  Lookups are pure Map reads and never evict. -/
theorem claim_C9 (k : String) (v : CacheEntry) (c : Cache) (times : List ℤ) (now : ℤ)
    (hTimes : ∀ t ∈ times, t ≤ v.timestamp + 3600000)
    (hNow : v.timestamp + 3600000 < now) :
    lookupCache (runSweeps times (cacheSet k v c)) k = some v ∧
    lookupCache (sweepCache now (runSweeps times (cacheSet k v c))) k = none := by
  obtain ⟨rest2, heq, hsub⟩ :=
    runSweeps_cons_shape k v times (c.filter fun p => !(p.1 == k)) hTimes
  have hset : cacheSet k v c = (k, v) :: c.filter (fun p => !(p.1 == k)) := rfl
  rw [hset, heq]
  constructor
  · exact lookupCache_cons_self k v rest2
  · rw [sweepCache_cons_drop now k v rest2 hNow]
    have hNoK : ∀ p ∈ rest2, ¬ ((p.1 == k) = true) := by
      intro p hp
      have hp2 : p ∈ c.filter (fun p => !(p.1 == k)) := hsub.subset hp
      have := List.of_mem_filter hp2
      simpa using this
    have hNoK2 : ∀ p ∈ sweepCache now rest2, ¬ ((p.1 == k) = true) := by
      intro p hp
      exact hNoK p (List.mem_of_mem_filter hp)
    rw [lookupCache, List.find?_eq_none.mpr hNoK2]
    rfl

/-- Witness for claim C9 at a concrete entry inserted at time 0 with a
mid-window sweep at 1800000 ms and a final sweep at 3600001 ms. -/
theorem claim_C9_witness :
    lookupCache (runSweeps [1800000]
        (cacheSet "amount_2500" ⟨"789", 25, "approved", 0⟩ [])) "amount_2500"
      = some ⟨"789", 25, "approved", 0⟩
    ∧ lookupCache (sweepCache 3600001 (runSweeps [1800000]
        (cacheSet "amount_2500" ⟨"789", 25, "approved", 0⟩ []))) "amount_2500"
      = none :=
  claim_C9 "amount_2500" ⟨"789", 25, "approved", 0⟩ [] [1800000] 3600001
    (by decide) (by decide)

theorem autoCleanupDeleted_mem (events : List IntentEvent) (i : String) :
    i ∈ autoCleanupDeleted (some events)
      ↔ ∃ ev, ev ∈ events ∧ ev.id = i ∧ terminalState ev.state = true := by
  unfold autoCleanupDeleted
  constructor
  · intro h
    obtain ⟨ev, hev, heq⟩ := List.mem_map.mp h
    obtain ⟨hmem, hterm⟩ := List.mem_filter.mp hev
    exact ⟨ev, hmem, heq, hterm⟩
  · rintro ⟨ev, hmem, heq, hterm⟩
    exact List.mem_map.mpr ⟨ev, List.mem_filter.mpr ⟨hmem, hterm⟩, heq⟩

/-- Claim C5: the 2-minute device-queue background sweep deletes exactly
the intents in a terminal remote state (FINISHED, CANCELED or ERROR) and
never an intent in state OPEN, ON_TERMINAL or PROCESSING; on a queue with
one OPEN and one CANCELED intent only the CANCELED one is deleted. -/
theorem claim_C5 (events : List IntentEvent) :
    (∀ ev ∈ events, terminalState ev.state = true →
        ev.id ∈ autoCleanupDeleted (some events))
    ∧ (∀ i ∈ autoCleanupDeleted (some events),
        ∃ ev, ev ∈ events ∧ ev.id = i ∧ terminalState ev.state = true)
    ∧ ((events.map (fun ev => ev.id)).Nodup →
        ∀ ev ∈ events,
          (ev.state = "OPEN" ∨ ev.state = "ON_TERMINAL" ∨ ev.state = "PROCESSING") →
          ev.id ∉ autoCleanupDeleted (some events))
    ∧ autoCleanupDeleted none = []
    ∧ autoCleanupDeleted (some [⟨"i1", "OPEN"⟩, ⟨"i2", "CANCELED"⟩]) = ["i2"] := by
  refine ⟨?_, ?_, ?_, rfl, by decide⟩
  · intro ev hev hterm
    exact (autoCleanupDeleted_mem events ev.id).mpr ⟨ev, hev, rfl, hterm⟩
  · intro i hi
    exact (autoCleanupDeleted_mem events i).mp hi
  · intro hnd ev hev hstate hmem
    obtain ⟨ev2, hev2, hid, hterm2⟩ := (autoCleanupDeleted_mem events ev.id).mp hmem
    have hterm_ev : terminalState ev.state = false := by
      rcases hstate with h | h | h <;> rw [h] <;> rfl
    have hne : ev2 ≠ ev := by
      intro h
      rw [h, hterm_ev] at hterm2
      cases hterm2
    have hpw : events.Pairwise (fun a b => a.id ≠ b.id) := List.pairwise_map.mp hnd
    have hsymm : Symmetric (fun a b : IntentEvent => a.id ≠ b.id) :=
      fun a b h e => h e.symm
    exact absurd hid (hpw.forall hsymm hev2 hev hne)

/-- Witness for claim C5 on the queue with one OPEN and one CANCELED
intent: the CANCELED one is deleted, the OPEN one is not. -/
theorem claim_C5_witness :
    ("i2" : String) ∈ autoCleanupDeleted (some [⟨"i1", "OPEN"⟩, ⟨"i2", "CANCELED"⟩])
    ∧ ("i1" : String) ∉ autoCleanupDeleted (some [⟨"i1", "OPEN"⟩, ⟨"i2", "CANCELED"⟩]) :=
  ⟨(claim_C5 [⟨"i1", "OPEN"⟩, ⟨"i2", "CANCELED"⟩]).1 ⟨"i2", "CANCELED"⟩ (by decide) rfl,
   (claim_C5 [⟨"i1", "OPEN"⟩, ⟨"i2", "CANCELED"⟩]).2.2.1 (by decide)
     ⟨"i1", "OPEN"⟩ (by decide) (Or.inl rfl)⟩

theorem stepProduct_stock_nonneg (item : OrderItem) (p : Product)
    (h : ∀ s : ℤ, p.stock = some s → 0 ≤ s) :
    ∀ s : ℤ, (stepProduct item p).stock = some s → 0 ≤ s := by
  intro s hs
  unfold stepProduct at hs
  by_cases hid : (p.id == item.id) = true
  · rw [if_pos hid] at hs
    cases hstock : p.stock with
    | none => rw [hstock] at hs; exact h s hs
    | some s0 =>
      rw [hstock] at hs
      dsimp only at hs
      have : max 0 (s0 - item.quantity) = s := Option.some.inj hs
      rw [← this]
      exact le_max_left 0 _
  · rw [if_neg hid] at hs
    exact h s hs

theorem decrementItems_stock_nonneg (items : List OrderItem) :
    ∀ products : List Product,
      (∀ q ∈ products, ∀ s : ℤ, q.stock = some s → 0 ≤ s) →
      ∀ q ∈ decrementItems products items, ∀ s : ℤ, q.stock = some s → 0 ≤ s := by
  induction items with
  | nil => exact fun products h => h
  | cons it its ih =>
    intro products h
    have hstep : ∀ q ∈ applyItem products it, ∀ s : ℤ, q.stock = some s → 0 ≤ s := by
      intro q hq
      obtain ⟨q0, hq0, rfl⟩ := List.mem_map.mp hq
      exact stepProduct_stock_nonneg it q0 (h q0 hq0)
    exact ih (applyItem products it) hstep

/-- Claim C7: the webhook-triggered stock decrement sets for every product
with finite stock matched by a sold item the new stock to
max(0, stock_before - quantity), never negative; products with null
(unlimited) stock and unmatched products are left unchanged, and the full
decrement loop preserves nonnegativity of all finite stocks. -/
theorem claim_C7 (item : OrderItem) (p : Product) :
    (∀ s : ℤ, p.stock = some s → p.id = item.id →
        (stepProduct item p).stock = some (max 0 (s - item.quantity))
          ∧ 0 ≤ max 0 (s - item.quantity))
    ∧ (p.stock = none → stepProduct item p = p)
    ∧ (p.id ≠ item.id → stepProduct item p = p)
    ∧ (∀ (products : List Product) (items : List OrderItem),
        (∀ q ∈ products, ∀ s : ℤ, q.stock = some s → 0 ≤ s) →
        ∀ q ∈ decrementItems products items, ∀ s : ℤ, q.stock = some s → 0 ≤ s) := by
  refine ⟨?_, ?_, ?_, fun products items => decrementItems_stock_nonneg items products⟩
  · intro s hs hid
    unfold stepProduct
    rw [if_pos (beq_iff_eq.mpr hid), hs]
    exact ⟨rfl, le_max_left 0 _⟩
  · intro hs
    unfold stepProduct
    rw [hs]
    split <;> rfl
  · intro hid
    unfold stepProduct
    rw [if_neg (by simpa using hid)]

/-- Witness for claim C7: selling 2 units of a product with stock 5
leaves stock max(0, 5-2) = 3, and a null-stock product is unchanged. -/
theorem claim_C7_witness :
    (stepProduct ⟨"prod1", "Pastel", 2⟩ ⟨"prod1", "Pastel", some 5⟩).stock
        = some (max 0 ((5 : ℤ) - 2))
    ∧ stepProduct ⟨"prod1", "Pastel", 2⟩ ⟨"prod1", "Pastel", none⟩
        = ⟨"prod1", "Pastel", none⟩ :=
  ⟨((claim_C7 ⟨"prod1", "Pastel", 2⟩ ⟨"prod1", "Pastel", some 5⟩).1 5 rfl rfl).1,
   (claim_C7 ⟨"prod1", "Pastel", 2⟩ ⟨"prod1", "Pastel", none⟩).2.1 rfl⟩

/-- Claim C8: in the cancel endpoint an intent deletion answered 409 is
retried exactly once after a fixed 2000 ms delay; a successful retry
(2xx, 204 or 404) removes the intent and the overall cancel reports
success; a failed retry leaves the intent, the loop continues over every
queued intent and the endpoint still reports success instead of aborting. -/
theorem claim_C8 (i : String) (r : Nat) (intents : List IntentDel) :
    ((deleteIntentDel ⟨i, 409, r⟩).attempts = 2
      ∧ (deleteIntentDel ⟨i, 409, r⟩).waitedMs = 2000)
    ∧ (isDelSuccess r = true → (deleteIntentDel ⟨i, 409, r⟩).removed = true)
    ∧ (isDelSuccess r = false → (deleteIntentDel ⟨i, 409, r⟩).removed = false)
    ∧ (∀ s : Nat, isDelSuccess s = true → deleteIntentDel ⟨i, s, r⟩ = ⟨true, 1, 0⟩)
    ∧ (cancelPointQueue intents).1.success = true
    ∧ (cancelPointQueue intents).2.length = intents.length
    ∧ cancelPointQueue [⟨"i1", 409, 204⟩] = (⟨true, 1⟩, [⟨true, 2, 2000⟩]) := by
  refine ⟨⟨rfl, rfl⟩, ?_, ?_, ?_, rfl, ?_, rfl⟩
  · intro h; exact h
  · intro h; exact h
  · intro s h
    unfold deleteIntentDel
    rw [if_pos h]
  · exact List.length_map intents deleteIntentDel

/-- Witness for claim C8: first deletion answered 409, retry answered 204;
the intent ends up removed after exactly one 2000 ms-delayed retry. -/
theorem claim_C8_witness :
    (deleteIntentDel ⟨"i1", 409, 204⟩).removed = true
    ∧ (deleteIntentDel ⟨"i1", 409, 204⟩).attempts = 2
    ∧ (deleteIntentDel ⟨"i1", 409, 204⟩).waitedMs = 2000 :=
  ⟨(claim_C8 "i1" 204 []).2.1 (by decide),
   (claim_C8 "i1" 204 []).1.1,
   (claim_C8 "i1" 204 []).1.2⟩

/-- Claim C10: any payment id starting with the endpoint's mock prefix
("mock_" in the current revision, "mock_pay" in the earlier revisions) is
answered approved immediately, with no gateway call, regardless of the
cache, the gateway state and the credentials. -/
theorem claim_C10 (pid : String) (hasToken : Bool) (cache : Cache)
    (gw : MainGateway) (gw2 : GatewayV2) :
    (startsWith pid "mock_" = true →
      checkPaymentStatus hasToken pid cache gw = (approved200, []))
    ∧ (startsWith pid "mock_pay" = true →
      statusCheckV2 pid gw2 = (approved200, [])) := by
  constructor
  · intro h
    unfold checkPaymentStatus
    rw [if_pos h]
  · intro h
    unfold statusCheckV2
    rw [if_pos h]

/-- Witness for claim C10 on the id "mock_pay_1" (which carries both
prefixes), with no token and a failing gateway. -/
theorem claim_C10_witness :
    checkPaymentStatus false "mock_pay_1" [] ⟨.netErr, .netErr⟩ = (approved200, [])
    ∧ statusCheckV2 "mock_pay_1" ⟨none, none⟩ = (approved200, []) :=
  ⟨(claim_C10 "mock_pay_1" false [] ⟨.netErr, .netErr⟩ ⟨none, none⟩).1 (by decide),
   (claim_C10 "mock_pay_1" false [] ⟨.netErr, .netErr⟩ ⟨none, none⟩).2 (by decide)⟩

/-- Claim C2 (code evaluation): the status-check endpoint never reads the
confirmedPayments cache.  Its result is independent of the cache contents,
and on the claim's failing input - a webhook-confirmed R$ 25.00 payment
sitting in the cache under key "amount_2500" and a first poll finding the
intent still OPEN - it performs a gateway round trip and answers pending
instead of answering approved from the cache with no gateway call. -/
theorem claim_C2_code_eval :
    (∀ cache : Cache,
      checkPaymentStatus true "pi_1" cache ⟨.ok ⟨"OPEN", none⟩, .notOk⟩
        = checkPaymentStatus true "pi_1" [] ⟨.ok ⟨"OPEN", none⟩, .notOk⟩)
    ∧ (checkPaymentStatus true "pi_1"
        (cacheSet "amount_2500" ⟨"789", 25, "approved", 1000⟩ [])
        ⟨.ok ⟨"OPEN", none⟩, .notOk⟩).1 = pending200
    ∧ (checkPaymentStatus true "pi_1"
        (cacheSet "amount_2500" ⟨"789", 25, "approved", 1000⟩ [])
        ⟨.ok ⟨"OPEN", none⟩, .notOk⟩).2 = [GatewayCall.getIntent "pi_1"]
    ∧ lookupCache (cacheSet "amount_2500" ⟨"789", 25, "approved", 1000⟩ []) "amount_2500"
        = some ⟨"789", 25, "approved", 1000⟩ :=
  ⟨fun cache => rfl, rfl, rfl, rfl⟩

theorem mathAbs_eq_abs (x : ℚ) : mathAbs x = |x| := by
  unfold mathAbs
  split
  · exact (abs_of_neg (by assumption)).symm
  · exact (abs_of_nonneg (le_of_not_lt (by assumption))).symm

theorem fuzzyMatch_eq_true_iff (e : ℚ) (p : PaymentV2) :
    fuzzyMatch e p = true ↔
      ((p.status = "approved" ∨ p.status = "authorized")
        ∧ |p.transaction_amount - e| < 1/100) := by
  simp [fuzzyMatch, mathAbs_eq_abs, Bool.and_eq_true, Bool.or_eq_true, decide_eq_true_eq]

theorem statusCheckV2_approved_by_state (pid : String) (d : IntentDataV2)
    (res : Option (List PaymentV2))
    (hm : startsWith pid "mock_pay" = false)
    (hs : (d.state == some "FINISHED" || d.state == some "PROCESSED") = true) :
    statusCheckV2 pid ⟨some d, res⟩ = (approved200, [.getIntent pid]) := by
  unfold statusCheckV2
  rw [if_neg (by simp [hm])]
  dsimp only
  rw [if_pos hs]

theorem statusCheckV2_search_none (pid : String) (d : IntentDataV2) (payments : List PaymentV2)
    (hm : startsWith pid "mock_pay" = false)
    (hs : (d.state == some "FINISHED" || d.state == some "PROCESSED") = false)
    (hp : d.payment = none)
    (hpos : 0 < ((d.amount.getD 0 : ℤ) : ℚ) / 100)
    (hfind : payments.find? (fuzzyMatch (((d.amount.getD 0 : ℤ) : ℚ) / 100)) = none) :
    statusCheckV2 pid ⟨some d, some payments⟩
      = (pending200, [.getIntent pid, .searchPayments]) := by
  unfold statusCheckV2
  rw [if_neg (by simp [hm])]
  dsimp only
  rw [if_neg (by simp [hs]), hp]
  rw [if_neg (by simp)]
  rw [if_pos hpos, hfind]

theorem statusCheckV2_search_found (pid : String) (d : IntentDataV2)
    (payments : List PaymentV2) (q : PaymentV2)
    (hm : startsWith pid "mock_pay" = false)
    (hs : (d.state == some "FINISHED" || d.state == some "PROCESSED") = false)
    (hp : d.payment = none)
    (hpos : 0 < ((d.amount.getD 0 : ℤ) : ℚ) / 100)
    (hfind : payments.find? (fuzzyMatch (((d.amount.getD 0 : ℤ) : ℚ) / 100)) = some q) :
    statusCheckV2 pid ⟨some d, some payments⟩
      = (approved200, [.getIntent pid, .searchPayments, .deleteIntent pid]) := by
  unfold statusCheckV2
  rw [if_neg (by simp [hm])]
  dsimp only
  rw [if_neg (by simp [hs]), hp]
  rw [if_neg (by simp)]
  rw [if_pos hpos, hfind]

theorem checkPaymentStatus_intent_payment (pid : String) (cache : Cache)
    (gw : MainGateway) (intent : IntentMain) (payId : String)
    (hm : startsWith pid "mock_" = false)
    (hg : gw.intentFetch = .ok intent) (hpay : intent.payment = some payId) :
    checkPaymentStatus true pid cache gw
      = (approvedWith payId, [.getIntent pid, .deleteIntent pid]) := by
  unfold checkPaymentStatus
  rw [if_neg (by simp [hm]), hg]
  rw [if_neg (by simp)]
  dsimp only
  rw [hpay]

theorem checkPaymentStatus_intent_finished (pid : String) (cache : Cache)
    (gw : MainGateway) (intent : IntentMain)
    (hm : startsWith pid "mock_" = false)
    (hg : gw.intentFetch = .ok intent) (hpay : intent.payment = none)
    (hfin : intent.state = "FINISHED") :
    checkPaymentStatus true pid cache gw = (approved200, [.getIntent pid]) := by
  unfold checkPaymentStatus
  rw [if_neg (by simp [hm]), hg]
  rw [if_neg (by simp)]
  dsimp only
  rw [hpay]
  rw [if_pos (by simp [hfin])]

/-- Claim C6: the amount fuzzy-match strategy accepts a candidate payment
exactly when its status is approved or authorized and the absolute
difference between its transaction amount and the expected amount is
within epsilon 0.01 currency units (strictly below 0.01, as the source
compares with <); expected amount 10.00 matches candidates 10.00 and
10.005 but not 10.02. -/
theorem claim_C6 :
    (∀ x : ℚ, mathAbs x = |x|)
    ∧ (∀ (e : ℚ) (p : PaymentV2), fuzzyMatch e p = true ↔
        ((p.status = "approved" ∨ p.status = "authorized")
          ∧ |p.transaction_amount - e| < 1/100))
    ∧ fuzzyMatch 10 ⟨"p1", "approved", 10⟩ = true
    ∧ fuzzyMatch 10 ⟨"p2", "approved", 10.005⟩ = true
    ∧ fuzzyMatch 10 ⟨"p3", "approved", 10.02⟩ = false
    ∧ fuzzyMatch 10 ⟨"p4", "authorized", 10.005⟩ = true
    ∧ fuzzyMatch 10 ⟨"p5", "pending", 10⟩ = false := by
  refine ⟨mathAbs_eq_abs, fuzzyMatch_eq_true_iff, ?_, ?_, ?_, ?_, ?_⟩
  · rw [fuzzyMatch_eq_true_iff]
    refine ⟨Or.inl rfl, ?_⟩
    show |(10 : ℚ) - 10| < 1/100
    rw [show (10 : ℚ) - 10 = 0 by norm_num, abs_zero]
    norm_num
  · rw [fuzzyMatch_eq_true_iff]
    refine ⟨Or.inl rfl, ?_⟩
    show |(10.005 : ℚ) - 10| < 1/100
    rw [show (10.005 : ℚ) - 10 = 1/200 by norm_num, abs_of_pos (by norm_num)]
    norm_num
  · apply Bool.eq_false_iff.mpr
    intro hT
    obtain ⟨-, habs⟩ := (fuzzyMatch_eq_true_iff 10 ⟨"p3", "approved", 10.02⟩).mp hT
    rw [show ((⟨"p3", "approved", 10.02⟩ : PaymentV2).transaction_amount : ℚ) - 10 = 1/50
        by show (10.02 : ℚ) - 10 = 1/50; norm_num,
      abs_of_pos (by norm_num)] at habs
    norm_num at habs
  · rw [fuzzyMatch_eq_true_iff]
    refine ⟨Or.inr rfl, ?_⟩
    show |(10.005 : ℚ) - 10| < 1/100
    rw [show (10.005 : ℚ) - 10 = 1/200 by norm_num, abs_of_pos (by norm_num)]
    norm_num
  · apply Bool.eq_false_iff.mpr
    intro hT
    obtain ⟨hst, -⟩ := (fuzzyMatch_eq_true_iff 10 ⟨"p5", "pending", 10⟩).mp hT
    rcases hst with h | h <;> exact absurd h (by decide)

/-- Claim C3: whenever a status-check invocation hits a gateway failure or
resolves no strategy, it answers HTTP 200 with status pending rather than
any error status - in the current revision (throwing intent fetch; intent
found but unresolved; intent missing and the payment lookup throwing,
missing or unresolved) and in revision 2 (throwing intent fetch; intent
without terminal state, linked payment, or positive expected amount;
throwing or empty-handed amount search). -/
theorem claim_C3 (pid : String) (cache : Cache) (gw : MainGateway) (gw2 : GatewayV2)
    (hm1 : startsWith pid "mock_" = false)
    (hm2 : startsWith pid "mock_pay" = false)
    (hMain : gw.intentFetch = .netErr
      ∨ (∃ intent, gw.intentFetch = .ok intent ∧ intent.payment = none
          ∧ intent.state ≠ "FINISHED" ∧ intent.state ≠ "CANCELED" ∧ intent.state ≠ "ERROR")
      ∨ (gw.intentFetch = .notOk
          ∧ (gw.paymentFetch = .netErr ∨ gw.paymentFetch = .notOk
             ∨ ∃ p, gw.paymentFetch = .ok p ∧ p.status ≠ "approved"
                 ∧ p.status ≠ "cancelled" ∧ p.status ≠ "rejected")))
    (hV2 : gw2.intentFetch = none
      ∨ ∃ d, gw2.intentFetch = some d
          ∧ d.state ≠ some "FINISHED" ∧ d.state ≠ some "PROCESSED"
          ∧ d.payment = none
          ∧ (¬ (0 < ((d.amount.getD 0 : ℤ) : ℚ) / 100)
             ∨ gw2.searchFetch = none
             ∨ ∃ l, gw2.searchFetch = some l
                 ∧ l.find? (fuzzyMatch (((d.amount.getD 0 : ℤ) : ℚ) / 100)) = none)) :
    (checkPaymentStatus true pid cache gw).1 = pending200 ∧
    (statusCheckV2 pid gw2).1 = pending200 := by
  constructor
  · rcases hMain with h | ⟨intent, hg, hpay, hsf, hsc, hse⟩ | ⟨hg, hrest⟩
    · unfold checkPaymentStatus
      rw [if_neg (by simp [hm1]), if_neg (by simp), h]
    · unfold checkPaymentStatus
      rw [if_neg (by simp [hm1]), if_neg (by simp), hg]
      dsimp only
      rw [hpay, if_neg (by simp [hsf]), if_neg (by simp [hsc, hse])]
    · unfold checkPaymentStatus
      rw [if_neg (by simp [hm1]), if_neg (by simp), hg]
      dsimp only
      rcases hrest with hp | hp | ⟨p, hp, h1, h2, h3⟩
      · rw [hp]
      · rw [hp]
      · rw [hp]
        dsimp only
        rw [if_neg (by simp [h1]), if_neg (by simp [h2, h3])]
  · rcases hV2 with h | ⟨d, hd, hsf, hsp, hp, hrest⟩
    · unfold statusCheckV2
      rw [if_neg (by simp [hm2]), h]
    · unfold statusCheckV2
      rw [if_neg (by simp [hm2]), hd]
      dsimp only
      rw [if_neg (by simp [hsf, hsp]), hp, if_neg (by simp)]
      rcases hrest with hneg | hsearch | ⟨l, hsearch, hfind⟩
      · rw [if_neg hneg]
      · by_cases hpos : 0 < ((d.amount.getD 0 : ℤ) : ℚ) / 100
        · rw [if_pos hpos, hsearch]
        · rw [if_neg hpos]
      · by_cases hpos : 0 < ((d.amount.getD 0 : ℤ) : ℚ) / 100
        · rw [if_pos hpos, hsearch]
          dsimp only
          rw [hfind]
        · rw [if_neg hpos]

/-- Witness for claim C3: both endpoints answer 200 pending when the
intent fetch throws a network error. -/
theorem claim_C3_witness :
    (checkPaymentStatus true "pi_1" [] ⟨.netErr, .netErr⟩).1 = pending200
    ∧ (statusCheckV2 "pi_1" ⟨none, none⟩).1 = pending200 :=
  claim_C3 "pi_1" [] ⟨.netErr, .netErr⟩ ⟨none, none⟩ (by decide) (by decide)
    (Or.inl rfl) (Or.inl rfl)

/-- Counterexample to claim C4: in the claimed three-poll scenario
OPEN, OPEN, FINISHED (intent amount 2550 centavos) the first two polls
return pending and the third returns approved, but the intent is NOT
deleted after the third poll - approval via intent state FINISHED issues
no deleteIntent call, refuting "on approval via any strategy the remote
intent is deleted". -/
theorem claim_C4_counterexample :
    (statusCheckV2 "pi_1" ⟨some ⟨some "OPEN", none, some 2550⟩, some []⟩).1 = pending200
    ∧ (statusCheckV2 "pi_1" ⟨some ⟨some "OPEN", none, some 2550⟩, some []⟩).1 = pending200
    ∧ (statusCheckV2 "pi_1" ⟨some ⟨some "FINISHED", none, some 2550⟩, some []⟩).1 = approved200
    ∧ GatewayCall.deleteIntent "pi_1"
        ∉ (statusCheckV2 "pi_1" ⟨some ⟨some "FINISHED", none, some 2550⟩, some []⟩).2 := by
  have h1 := statusCheckV2_search_none "pi_1" ⟨some "OPEN", none, some 2550⟩ []
    (by decide) (by decide) rfl (by norm_num) rfl
  have h2 := statusCheckV2_approved_by_state "pi_1" ⟨some "FINISHED", none, some 2550⟩
    (some []) (by decide) (by decide)
  rw [h1, h2]
  exact ⟨rfl, rfl, rfl, by decide⟩

/-- Claim C4 (amended): the status check deletes the remote intent only on
the two strategies that do so in the source - the intent-linked payment id
(current revision) and the amount fuzzy match (revision 2) - and responds
approved there; approval via intent state FINISHED/PROCESSED responds
approved WITHOUT deleting; in the three-poll scenario OPEN, OPEN, FINISHED
the first two polls return pending, the third returns approved, and the
intent is never deleted. -/
theorem claim_C4_amended
    (pid : String) (hm1 : startsWith pid "mock_" = false)
    (hm2 : startsWith pid "mock_pay" = false)
    (cache : Cache) (gw : MainGateway) (intent : IntentMain) (payId : String)
    (hg : gw.intentFetch = .ok intent) (hpay : intent.payment = some payId)
    (d : IntentDataV2) (payments : List PaymentV2) (q : PaymentV2)
    (hs : (d.state == some "FINISHED" || d.state == some "PROCESSED") = false)
    (hp : d.payment = none)
    (hpos : 0 < ((d.amount.getD 0 : ℤ) : ℚ) / 100)
    (hfind : payments.find? (fuzzyMatch (((d.amount.getD 0 : ℤ) : ℚ) / 100)) = some q)
    (dFin : IntentDataV2)
    (hdFin : (dFin.state == some "FINISHED" || dFin.state == some "PROCESSED") = true)
    (res2 : Option (List PaymentV2)) :
    statusCheckV2 pid ⟨some d, some payments⟩
        = (approved200, [.getIntent pid, .searchPayments, .deleteIntent pid])
    ∧ checkPaymentStatus true pid cache gw
        = (approvedWith payId, [.getIntent pid, .deleteIntent pid])
    ∧ statusCheckV2 pid ⟨some dFin, res2⟩ = (approved200, [.getIntent pid])
    ∧ (statusCheckV2 "pi_1" ⟨some ⟨some "OPEN", none, some 2550⟩, some []⟩).1 = pending200
    ∧ (statusCheckV2 "pi_1" ⟨some ⟨some "FINISHED", none, some 2550⟩, some []⟩).1
        = approved200
    ∧ GatewayCall.deleteIntent "pi_1"
        ∉ (statusCheckV2 "pi_1" ⟨some ⟨some "OPEN", none, some 2550⟩, some []⟩).2
    ∧ GatewayCall.deleteIntent "pi_1"
        ∉ (statusCheckV2 "pi_1" ⟨some ⟨some "FINISHED", none, some 2550⟩, some []⟩).2 := by
  have h1 := statusCheckV2_search_none "pi_1" ⟨some "OPEN", none, some 2550⟩ []
    (by decide) (by decide) rfl (by norm_num) rfl
  have h2 := statusCheckV2_approved_by_state "pi_1" ⟨some "FINISHED", none, some 2550⟩
    (some []) (by decide) (by decide)
  refine ⟨statusCheckV2_search_found pid d payments q hm2 hs hp hpos hfind,
    checkPaymentStatus_intent_payment pid cache gw intent payId hm1 hg hpay,
    statusCheckV2_approved_by_state pid dFin res2 hm2 hdFin, ?_, ?_, ?_, ?_⟩
  · rw [h1]
  · rw [h2]
  · rw [h1]; decide
  · rw [h2]; decide

/-- Witness for the amended claim C4: a fuzzy-match approval (intent
ON_TERMINAL, amount 2550 centavos, one approved R$ 25.50 search result)
responds approved and deletes the intent, and a linked-payment-id
approval in the current revision does the same. -/
theorem claim_C4_witness :
    statusCheckV2 "pi_1" ⟨some ⟨some "ON_TERMINAL", none, some 2550⟩,
        some [⟨"789", "approved", 25.5⟩]⟩
      = (approved200, [.getIntent "pi_1", .searchPayments, .deleteIntent "pi_1"])
    ∧ checkPaymentStatus true "pi_1" [] ⟨.ok ⟨"OPEN", some "789"⟩, .notOk⟩
      = (approvedWith "789", [.getIntent "pi_1", .deleteIntent "pi_1"]) := by
  have hfm : fuzzyMatch ((((2550 : ℤ) : ℚ)) / 100) ⟨"789", "approved", 25.5⟩ = true := by
    rw [fuzzyMatch_eq_true_iff]
    refine ⟨Or.inl rfl, ?_⟩
    show |(25.5 : ℚ) - ((2550 : ℤ) : ℚ) / 100| < 1/100
    rw [show (25.5 : ℚ) - ((2550 : ℤ) : ℚ) / 100 = 0 by push_cast; norm_num, abs_zero]
    norm_num
  have hfind : List.find? (fuzzyMatch ((((2550 : ℤ) : ℚ)) / 100))
      [⟨"789", "approved", 25.5⟩] = some ⟨"789", "approved", 25.5⟩ := by
    rw [List.find?_cons_of_pos _ hfm]
  have h := claim_C4_amended "pi_1" (by decide) (by decide) []
    ⟨.ok ⟨"OPEN", some "789"⟩, .notOk⟩ ⟨"OPEN", some "789"⟩ "789" rfl rfl
    ⟨some "ON_TERMINAL", none, some 2550⟩ [⟨"789", "approved", 25.5⟩]
    ⟨"789", "approved", 25.5⟩ (by decide) rfl (by norm_num) hfind
    ⟨some "FINISHED", none, none⟩ (by decide) none
  exact ⟨h.1, h.2.1⟩

end MachineToten
